import Mathlib

/-!
Verification of the RevBoost notification server (email/SMS sending service).

The definitions below are shallow embeddings of the JavaScript source:
pure string functions become Lean functions on `String`/`List Char`,
stateful objects (liveness scheduler counters) become explicit state
passing, environment variables and provider/network outcomes become
explicit parameters, and thrown JS errors become `Except` values.
-/

/-- The double-quote character (JS `"`), written numerically. -/
def quoteChar : Char := Char.ofNat 34

/-- The apostrophe character (JS `'`), written numerically. -/
def aposChar : Char := Char.ofNat 39

/-- Replace every occurrence of the character `c` by the character list
`rep`.  This models a JavaScript global regex replace such as
`text.replace(/&/g, "&amp;")` at the character level. -/
def replaceAllChar (c : Char) (rep : List Char) : List Char → List Char
  | [] => []
  | x :: xs =>
    if x = c then rep ++ replaceAllChar c rep xs
    else x :: replaceAllChar c rep xs

/-- The entity `&amp;` as a character list. -/
def ampEnt : List Char := ['&', 'a', 'm', 'p', ';']

/-- The entity `&lt;` as a character list. -/
def ltEnt : List Char := ['&', 'l', 't', ';']

/-- The entity `&gt;` as a character list. -/
def gtEnt : List Char := ['&', 'g', 't', ';']

/-- The entity `&quot;` as a character list. -/
def quotEnt : List Char := ['&', 'q', 'u', 'o', 't', ';']

/-- The entity `&#039;` as a character list. -/
def aposEnt : List Char := ['&', '#', '0', '3', '9', ';']

/-- Character-list core of `escapeHtml`: the five chained global
replaces of `utils/email-templates.js`, applied in source order
(`&` first, then `<`, `>`, `"`, `'`). -/
def escapeHtmlList (l : List Char) : List Char :=
  replaceAllChar aposChar aposEnt
    (replaceAllChar quoteChar quotEnt
      (replaceAllChar '>' gtEnt
        (replaceAllChar '<' ltEnt
          (replaceAllChar '&' ampEnt l))))

/-- Function `escapeHtml` from `utils/email-templates.js`: escapes HTML to
prevent XSS via five chained global replaces. -/
def escapeHtml (text : String) : String :=
  String.mk (escapeHtmlList text.toList)

/-- Spec-side per-character encoder: each of the five HTML-significant
characters maps to its entity, every other character to itself. -/
def encodeChar (c : Char) : List Char :=
  if c = '&' then ampEnt
  else if c = '<' then ltEnt
  else if c = '>' then gtEnt
  else if c = quoteChar then quotEnt
  else if c = aposChar then aposEnt
  else [c]

/-- Spec-side character-wise escape: concatenation of `encodeChar`
over the input. -/
def escapeSpec : List Char → List Char
  | [] => []
  | x :: xs => encodeChar x ++ escapeSpec xs

lemma replaceAllChar_append (c : Char) (rep a b : List Char) :
    replaceAllChar c rep (a ++ b) =
      replaceAllChar c rep a ++ replaceAllChar c rep b := by
  induction a with
  | nil => simp [replaceAllChar]
  | cons x xs ih =>
    by_cases hx : x = c <;> simp [replaceAllChar, hx, ih]

lemma escapeHtmlList_append (a b : List Char) :
    escapeHtmlList (a ++ b) = escapeHtmlList a ++ escapeHtmlList b := by
  simp [escapeHtmlList, replaceAllChar_append]

lemma escapeHtmlList_single (x : Char) :
    escapeHtmlList [x] = encodeChar x := by
  by_cases h1 : x = '&'
  · subst h1; decide
  by_cases h2 : x = '<'
  · subst h2; decide
  by_cases h3 : x = '>'
  · subst h3; decide
  by_cases h4 : x = quoteChar
  · subst h4; decide
  by_cases h5 : x = aposChar
  · subst h5; decide
  simp [escapeHtmlList, replaceAllChar, encodeChar, h1, h2, h3, h4, h5]

lemma escapeHtmlList_eq_escapeSpec (l : List Char) :
    escapeHtmlList l = escapeSpec l := by
  induction l with
  | nil => decide
  | cons x xs ih =>
    have : escapeHtmlList (x :: xs) = escapeHtmlList [x] ++ escapeHtmlList xs := by
      simpa using escapeHtmlList_append [x] xs
    rw [this, ih, escapeHtmlList_single]
    rfl

/-- Predicate `startsWithL pat l` is true when `pat` is an initial segment of `l`. -/
def startsWithL : List Char → List Char → Bool
  | [], _ => true
  | _ :: _, [] => false
  | p :: ps, x :: xs => p = x && startsWithL ps xs

/-- True when `l` begins with the tail of one of the five entities
produced by `escapeHtml` (the part after the ampersand). -/
def entityTailAt (l : List Char) : Bool :=
  startsWithL ['a', 'm', 'p', ';'] l ||
  startsWithL ['l', 't', ';'] l ||
  startsWithL ['g', 't', ';'] l ||
  startsWithL ['q', 'u', 'o', 't', ';'] l ||
  startsWithL ['#', '0', '3', '9', ';'] l

/-- True when every ampersand in `l` starts one of the five entities
`&amp; &lt; &gt; &quot; &#039;`. -/
def ampersandsEntityOnly : List Char → Bool
  | [] => true
  | c :: rest =>
    (if c = '&' then entityTailAt rest else true) && ampersandsEntityOnly rest

/-- True when `l` contains no literal `<`, `>`, `"` or `'`. -/
def noRawSpecials (l : List Char) : Bool :=
  l.all fun c => !(c = '<' || c = '>' || c = quoteChar || c = aposChar)

lemma noRawSpecials_append (a b : List Char) :
    noRawSpecials (a ++ b) = (noRawSpecials a && noRawSpecials b) := by
  simp [noRawSpecials]

lemma noRawSpecials_encodeChar (x : Char) :
    noRawSpecials (encodeChar x) = true := by
  by_cases h1 : x = '&'
  · subst h1; decide
  by_cases h2 : x = '<'
  · subst h2; decide
  by_cases h3 : x = '>'
  · subst h3; decide
  by_cases h4 : x = quoteChar
  · subst h4; decide
  by_cases h5 : x = aposChar
  · subst h5; decide
  simp [encodeChar, noRawSpecials, h1, h2, h3, h4, h5]

lemma noRawSpecials_escapeSpec (l : List Char) :
    noRawSpecials (escapeSpec l) = true := by
  induction l with
  | nil => decide
  | cons x xs ih =>
    simp [escapeSpec, noRawSpecials_append, noRawSpecials_encodeChar, ih]

lemma ampersandsEntityOnly_encodeChar (x : Char) (r : List Char) :
    ampersandsEntityOnly (encodeChar x ++ r) = ampersandsEntityOnly r := by
  by_cases h1 : x = '&'
  · subst h1
    simp [encodeChar, ampEnt, ampersandsEntityOnly, entityTailAt, startsWithL]
  by_cases h2 : x = '<'
  · subst h2
    simp [encodeChar, ltEnt, ampersandsEntityOnly, entityTailAt, startsWithL]
  by_cases h3 : x = '>'
  · subst h3
    simp [encodeChar, gtEnt, ampersandsEntityOnly, entityTailAt, startsWithL]
  by_cases h4 : x = quoteChar
  · subst h4
    simp [encodeChar, quotEnt, ampersandsEntityOnly, entityTailAt, startsWithL]
  by_cases h5 : x = aposChar
  · subst h5
    simp [encodeChar, aposEnt, ampersandsEntityOnly, entityTailAt, startsWithL]
  simp [encodeChar, ampersandsEntityOnly, h1, h2, h3, h4, h5]

lemma ampersandsEntityOnly_escapeSpec (l : List Char) :
    ampersandsEntityOnly (escapeSpec l) = true := by
  induction l with
  | nil => decide
  | cons x xs ih =>
    simpa [escapeSpec, ampersandsEntityOnly_encodeChar] using ih

/-- True for the five HTML-significant characters handled by `escapeHtml`. -/
def isSpecialChar (c : Char) : Bool :=
  c = '&' || c = '<' || c = '>' || c = quoteChar || c = aposChar

lemma replaceAllChar_of_not_mem (c : Char) (rep : List Char) (l : List Char)
    (h : ∀ x ∈ l, x ≠ c) : replaceAllChar c rep l = l := by
  induction l with
  | nil => rfl
  | cons x xs ih =>
    have hx : x ≠ c := h x (List.mem_cons_self x xs)
    have ih' := ih fun y hy => h y (List.mem_cons_of_mem x hy)
    simp [replaceAllChar, hx, ih']

lemma mem_replaceAllChar (c : Char) (rep : List Char) (l : List Char) (y : Char)
    (hy : y ∈ replaceAllChar c rep l) : y ∈ rep ∨ y ∈ l := by
  induction l with
  | nil => simp [replaceAllChar] at hy
  | cons x xs ih =>
    by_cases hx : x = c
    · simp only [replaceAllChar, if_pos hx, List.mem_append] at hy
      rcases hy with h | h
      · exact Or.inl h
      · rcases ih h with h' | h'
        · exact Or.inl h'
        · exact Or.inr (List.mem_cons_of_mem x h')
    · simp only [replaceAllChar, if_neg hx, List.mem_cons] at hy
      rcases hy with h | h
      · exact Or.inr (h ▸ List.mem_cons_self x xs)
      · rcases ih h with h' | h'
        · exact Or.inl h'
        · exact Or.inr (List.mem_cons_of_mem x h')

lemma length_replaceAmp (l : List Char) :
    (replaceAllChar '&' ampEnt l).length = l.length + 4 * l.count '&' := by
  induction l with
  | nil => rfl
  | cons x xs ih =>
    by_cases hx : x = '&'
    · subst hx
      have step : replaceAllChar '&' ampEnt ('&' :: xs)
          = ampEnt ++ replaceAllChar '&' ampEnt xs := by
        simp [replaceAllChar]
      rw [step, List.length_append, ih]
      simp [ampEnt, List.count_cons]
      omega
    · have step : replaceAllChar '&' ampEnt (x :: xs)
          = x :: replaceAllChar '&' ampEnt xs := by
        simp [replaceAllChar, hx]
      rw [step, List.length_cons, ih]
      simp [List.count_cons, hx]
      omega

lemma noRawSpecials_forall (l : List Char) (h : noRawSpecials l = true) :
    ∀ x ∈ l, x ≠ '<' ∧ x ≠ '>' ∧ x ≠ quoteChar ∧ x ≠ aposChar := by
  intro x hx
  have := List.all_eq_true.mp h x hx
  simp only [Bool.not_eq_true'] at this
  constructor
  · intro hc; subst hc; simp at this
  constructor
  · intro hc; subst hc; simp at this
  constructor
  · intro hc; subst hc; simp at this
  · intro hc; subst hc; simp at this

/-- On a list with no raw `<`, `>`, `"`, `'` (such as any `escapeHtml`
output), the five-pass escape collapses to the ampersand pass alone. -/
lemma escapeHtmlList_of_noRaw (l : List Char) (h : noRawSpecials l = true) :
    escapeHtmlList l = replaceAllChar '&' ampEnt l := by
  have hmem := noRawSpecials_forall l h
  have hamp : ∀ y ∈ replaceAllChar '&' ampEnt l,
      y ≠ '<' ∧ y ≠ '>' ∧ y ≠ quoteChar ∧ y ≠ aposChar := by
    intro y hy
    rcases mem_replaceAllChar '&' ampEnt l y hy with h' | h'
    · fin_cases h' <;> refine ⟨by decide, by decide, by decide, by decide⟩
    · exact hmem y h'
  unfold escapeHtmlList
  rw [replaceAllChar_of_not_mem '<' ltEnt _ (fun x hx => (hamp x hx).1),
      replaceAllChar_of_not_mem '>' gtEnt _ (fun x hx => (hamp x hx).2.1),
      replaceAllChar_of_not_mem quoteChar quotEnt _ (fun x hx => (hamp x hx).2.2.1),
      replaceAllChar_of_not_mem aposChar aposEnt _ (fun x hx => (hamp x hx).2.2.2)]

lemma amp_mem_escapeSpec (l : List Char) (c : Char) (hc : c ∈ l)
    (hs : isSpecialChar c = true) : '&' ∈ escapeSpec l := by
  induction l with
  | nil => simp at hc
  | cons x xs ih =>
    rcases List.mem_cons.mp hc with h | h
    · subst h
      refine List.mem_append.mpr (Or.inl ?_)
      simp only [isSpecialChar, Bool.or_eq_true, decide_eq_true_eq] at hs
      rcases hs with (((h1 | h1) | h1) | h1) | h1 <;> subst h1 <;> decide
    · exact List.mem_append.mpr (Or.inr (ih h))

/-- C4: `escapeHtml` equals the character-wise entity encoding (the
five HTML-significant characters become their entities, everything else
is unchanged, ampersands first so entities are never re-escaped within
one call); its output has no literal `<`, `>`, `"`, `'`, and every `&`
in the output starts one of the five entities. -/
theorem escapeHtml_output_safe (s : String) :
    (escapeHtml s).toList = escapeSpec s.toList ∧
    noRawSpecials (escapeHtml s).toList = true ∧
    ampersandsEntityOnly (escapeHtml s).toList = true := by
  have hchar : (escapeHtml s).toList = escapeHtmlList s.toList := rfl
  rw [hchar, escapeHtmlList_eq_escapeSpec]
  exact ⟨rfl, noRawSpecials_escapeSpec s.toList,
    ampersandsEntityOnly_escapeSpec s.toList⟩

/-- C9: double application of `escapeHtml` differs from a single
application exactly by re-escaping the ampersands of the first pass
(`escapeHtml (escapeHtml s)` is the ampersand pass applied to
`escapeHtml s`); in particular, whenever `s` contains one of the five
HTML-significant characters, `escapeHtml` is not idempotent at `s`. -/
theorem escapeHtml_double (s : String) :
    (escapeHtml (escapeHtml s)).toList
        = replaceAllChar '&' ampEnt (escapeHtml s).toList ∧
    ((∃ c ∈ s.toList, isSpecialChar c = true) →
      escapeHtml (escapeHtml s) ≠ escapeHtml s) := by
  have hsafe := escapeHtml_output_safe s
  have hmain : (escapeHtml (escapeHtml s)).toList
      = replaceAllChar '&' ampEnt (escapeHtml s).toList := by
    have : (escapeHtml (escapeHtml s)).toList
        = escapeHtmlList (escapeHtml s).toList := rfl
    rw [this, escapeHtmlList_of_noRaw _ hsafe.2.1]
  refine ⟨hmain, ?_⟩
  rintro ⟨c, hc, hspec⟩ heq
  have hampmem : '&' ∈ (escapeHtml s).toList := by
    rw [hsafe.1]
    exact amp_mem_escapeSpec s.toList c hc hspec
  have hcount : 0 < (escapeHtml s).toList.count '&' :=
    List.count_pos_iff.mpr hampmem
  have hlen : (escapeHtml (escapeHtml s)).toList.length
      = (escapeHtml s).toList.length + 4 * (escapeHtml s).toList.count '&' := by
    rw [hmain, length_replaceAmp]
  rw [heq] at hlen
  omega

/-- Witness for C9 at the concrete input `"<"`. -/
theorem escapeHtml_double_witness :
    (∃ c ∈ ("<").toList, isSpecialChar c = true) ∧
    escapeHtml (escapeHtml "<") ≠ escapeHtml "<" :=
  ⟨⟨'<', by decide, by decide⟩,
    (escapeHtml_double "<").2 ⟨'<', by decide, by decide⟩⟩

/-! ## SMS service (`services/sms-service.js`) -/

/-- The left-brace character. -/
def lbrace : Char := Char.ofNat 123

/-- JS truthiness of an optional string (environment variable or object
field): `undefined` and the empty string are falsy. -/
def truthy : Option String → Bool
  | some s => !s.isEmpty
  | none => false

/-- The backquote character, written numerically. -/
def backquoteChar : Char := Char.ofNat 96

/-- Function `getSubstitution` models the ECMAScript GetSubstitution
step that JavaScript `String.prototype.replace` applies to a string
replacement even when the search pattern is a string: scanning the
replacement, `$$` yields a literal dollar, `$&` the matched substring,
a dollar followed by a backquote the part of the subject before the
match, a dollar followed by an apostrophe the part after the match,
and any other dollar sequence is copied verbatim (with a string
pattern there are no capture groups, so `$n` is not special). -/
def getSubstitution (matched before after : List Char) : List Char → List Char
  | [] => []
  | [c] => [c]
  | c :: d :: rest =>
    if c = '$' then
      if d = '$' then '$' :: getSubstitution matched before after rest
      else if d = '&' then matched ++ getSubstitution matched before after rest
      else if d = backquoteChar then before ++ getSubstitution matched before after rest
      else if d = aposChar then after ++ getSubstitution matched before after rest
      else c :: d :: getSubstitution matched before after rest
    else c :: getSubstitution matched before after (d :: rest)

/-- Helper for `replaceFirstL`: scans for the first occurrence of
`pat`, carrying the already-scanned prefix in reverse (`seen`) so that
the replacement string's dollar sequences can refer to the text before
and after the match. -/
def replaceFirstAux (pat rep : List Char) (seen : List Char) :
    List Char → List Char
  | [] =>
    if pat.isEmpty then getSubstitution pat seen.reverse [] rep else []
  | x :: xs =>
    if startsWithL pat (x :: xs) then
      getSubstitution pat seen.reverse ((x :: xs).drop pat.length) rep ++
        (x :: xs).drop pat.length
    else x :: replaceFirstAux pat rep (x :: seen) xs

/-- Function `replaceFirstL pat rep l` models JavaScript
`String.prototype.replace` with a *string* pattern: only the first
occurrence of `pat` in `l` is replaced, the replacement `rep` undergoes
the dollar substitution of `getSubstitution`, and when `pat` does not
occur `l` is returned unchanged. -/
def replaceFirstL (pat rep l : List Char) : List Char :=
  replaceFirstAux pat rep [] l

/-- String wrapper for `replaceFirstL`. -/
def stringReplaceFirst (pat rep s : String) : String :=
  String.mk (replaceFirstL pat.toList rep.toList s.toList)

/-- Predicate `containsSub pat l` is true when `pat` occurs as a contiguous
sub-list of `l`. -/
def containsSub (pat : List Char) : List Char → Bool
  | [] => pat.isEmpty
  | x :: xs => startsWithL pat (x :: xs) || containsSub pat xs

/-- The `customData` object recognized by the SMS path. -/
structure SmsCustomData where
  messageTemplate : Option String

/-- Method `SmsService.generateReviewRequestMessage` from
`services/sms-service.js`: a default message, or — when
`customData.messageTemplate` is provided (and truthy) — the custom
template with the first occurrence of each of the three recognized
placeholders replaced via JS `String.replace` (so the substituted field
value undergoes dollar substitution). -/
def generateReviewRequestMessage (customerName businessName reviewLink : String)
    (customData : Option SmsCustomData) : String :=
  let message := "Hi " ++ customerName ++ ", thank you for choosing " ++
    businessName ++
    "! We\x27d love to hear your feedback. Please share your experience here: " ++
    reviewLink
  match customData with
  | some cd =>
    match cd.messageTemplate with
    | some t =>
      if t.isEmpty then message
      else
        stringReplaceFirst "\x7b\x7breviewLink\x7d\x7d" reviewLink
          (stringReplaceFirst "\x7b\x7bbusinessName\x7d\x7d" businessName
            (stringReplaceFirst "\x7b\x7bcustomerName\x7d\x7d" customerName t))
    | none => message
  | none => message

lemma startsWithL_append_self (pat v : List Char) :
    startsWithL pat (pat ++ v) = true := by
  induction pat with
  | nil => simp [startsWithL]
  | cons p ps ih => simp [startsWithL, ih]

lemma getSubstitution_of_no_dollar (matched before after : List Char) :
    ∀ rep : List Char, (∀ c ∈ rep, c ≠ '$') →
      getSubstitution matched before after rep = rep
  | [], _ => rfl
  | [c], _ => rfl
  | c :: d :: rest, h => by
    have hc : c ≠ '$' := h c (List.mem_cons_self c (d :: rest))
    have ih := getSubstitution_of_no_dollar matched before after (d :: rest)
      fun x hx => h x (List.mem_cons_of_mem c hx)
    simp [getSubstitution, hc, ih]

lemma replaceFirstAux_cons_neg (pat rep seen : List Char) (x : Char)
    (xs : List Char) (h : startsWithL pat (x :: xs) = false) :
    replaceFirstAux pat rep seen (x :: xs)
      = x :: replaceFirstAux pat rep (x :: seen) xs := by
  simp [replaceFirstAux, h]

lemma replaceFirstAux_of_not_containsSub (pat rep : List Char) :
    ∀ (l seen : List Char), containsSub pat l = false →
      replaceFirstAux pat rep seen l = l
  | [], seen, h => by
    simp only [containsSub] at h
    simp [replaceFirstAux, h]
  | x :: xs, seen, h => by
    have h' : startsWithL pat (x :: xs) = false ∧ containsSub pat xs = false := by
      simpa only [containsSub, Bool.or_eq_false_iff] using h
    rw [replaceFirstAux_cons_neg pat rep seen x xs h'.1,
        replaceFirstAux_of_not_containsSub pat rep xs (x :: seen) h'.2]

lemma replaceFirstL_of_not_containsSub (pat rep l : List Char)
    (h : containsSub pat l = false) : replaceFirstL pat rep l = l :=
  replaceFirstAux_of_not_containsSub pat rep l [] h

lemma replaceFirstAux_exact (pat rep seen v : List Char) :
    replaceFirstAux pat rep seen (pat ++ v)
      = getSubstitution pat seen.reverse v rep ++ v := by
  cases pat with
  | nil =>
    cases v with
    | nil => simp [replaceFirstAux]
    | cons x xs => simp [replaceFirstAux, startsWithL]
  | cons p ps =>
    simp [replaceFirstAux, startsWithL, startsWithL_append_self, List.drop_left]

lemma containsSub_append_left (pat : List Char) (p : Char)
    (hp : pat.head? = some p) (u v : List Char) (hu : ∀ c ∈ u, c ≠ p) :
    containsSub pat (u ++ v) = containsSub pat v := by
  induction u with
  | nil => rfl
  | cons x xs ih =>
    cases pat with
    | nil => simp at hp
    | cons q qs =>
      have hq : q = p := by simpa using hp
      have hx : x ≠ p := hu x (List.mem_cons_self x xs)
      have hqx : (q = x) = False := by
        subst hq
        exact eq_false fun h => hx h.symm
      have hstart : startsWithL (q :: qs) (x :: (xs ++ v)) = false := by
        simp [startsWithL, hqx]
      have ih' := ih fun c hc => hu c (List.mem_cons_of_mem x hc)
      calc containsSub (q :: qs) ((x :: xs) ++ v)
          = (startsWithL (q :: qs) (x :: (xs ++ v)) ||
              containsSub (q :: qs) (xs ++ v)) := rfl
        _ = containsSub (q :: qs) (xs ++ v) := by rw [hstart]; simp
        _ = containsSub (q :: qs) v := ih'

lemma strToList_append (s t : String) : (s ++ t).toList = s.toList ++ t.toList := by
  cases s
  cases t
  rfl

/-- C6 counterexample: with customer name `$&`, the dollar substitution
of JS `String.replace` re-inserts the matched placeholder instead of
the field value, so the recognized placeholder is not substituted with
the corresponding field value and survives verbatim — the output
differs from the claimed literal substitution. -/
theorem sms_custom_template_dollar_counterexample :
    generateReviewRequestMessage "$&" "Acme" "https://g.co/r"
        (some ⟨some "Hi \x7b\x7bcustomerName\x7d\x7d! Visit \x7b\x7bfoo\x7d\x7d today"⟩)
      = "Hi \x7b\x7bcustomerName\x7d\x7d! Visit \x7b\x7bfoo\x7d\x7d today" ∧
    generateReviewRequestMessage "$&" "Acme" "https://g.co/r"
        (some ⟨some "Hi \x7b\x7bcustomerName\x7d\x7d! Visit \x7b\x7bfoo\x7d\x7d today"⟩)
      ≠ "Hi $&! Visit \x7b\x7bfoo\x7d\x7d today" := by
  exact ⟨by decide, by decide⟩

/-- C6 (amended): with a caller-supplied `customData.messageTemplate`
containing the recognized placeholder for the customer name and an
unrecognized placeholder, and a customer name free of braces and of
dollars (so no placeholder re-injection and no JS dollar substitution),
`generateReviewRequestMessage` substitutes the customer name verbatim
(with no HTML escaping on the SMS path — the witness instantiates it
with a raw `<`) and leaves the unknown placeholder untouched; the
result does not depend on the other two fields. -/
theorem sms_custom_template_substitution (n b r : String)
    (h : ∀ c ∈ n.toList, c ≠ lbrace) (hd : ∀ c ∈ n.toList, c ≠ '$') :
    generateReviewRequestMessage n b r
        (some ⟨some "Hi \x7b\x7bcustomerName\x7d\x7d! Visit \x7b\x7bfoo\x7d\x7d today"⟩)
      = "Hi " ++ n ++ "! Visit \x7b\x7bfoo\x7d\x7d today" := by
  have hstep0 : generateReviewRequestMessage n b r
      (some ⟨some "Hi \x7b\x7bcustomerName\x7d\x7d! Visit \x7b\x7bfoo\x7d\x7d today"⟩)
      = stringReplaceFirst "\x7b\x7breviewLink\x7d\x7d" r
          (stringReplaceFirst "\x7b\x7bbusinessName\x7d\x7d" b
            (stringReplaceFirst "\x7b\x7bcustomerName\x7d\x7d" n
              "Hi \x7b\x7bcustomerName\x7d\x7d! Visit \x7b\x7bfoo\x7d\x7d today")) := rfl
  have hT : ("Hi \x7b\x7bcustomerName\x7d\x7d! Visit \x7b\x7bfoo\x7d\x7d today").toList
      = 'H' :: 'i' :: ' ' :: (("\x7b\x7bcustomerName\x7d\x7d").toList ++
          ("! Visit \x7b\x7bfoo\x7d\x7d today").toList) := by decide
  have h1 : replaceFirstL ("\x7b\x7bcustomerName\x7d\x7d").toList n.toList
      ("Hi \x7b\x7bcustomerName\x7d\x7d! Visit \x7b\x7bfoo\x7d\x7d today").toList
      = "Hi ".toList ++ (n.toList ++ ("! Visit \x7b\x7bfoo\x7d\x7d today").toList) := by
    simp only [replaceFirstL]
    rw [hT, replaceFirstAux_cons_neg _ _ _ _ _ (by decide),
        replaceFirstAux_cons_neg _ _ _ _ _ (by decide),
        replaceFirstAux_cons_neg _ _ _ _ _ (by decide),
        replaceFirstAux_exact,
        getSubstitution_of_no_dollar _ _ _ n.toList hd]
    rfl
  have hc2 : containsSub ("\x7b\x7bbusinessName\x7d\x7d").toList
      ("Hi ".toList ++ (n.toList ++ ("! Visit \x7b\x7bfoo\x7d\x7d today").toList))
      = false := by
    rw [containsSub_append_left _ lbrace (by decide) _ _ (by decide),
        containsSub_append_left _ lbrace (by decide) _ _ h]
    decide
  have hc3 : containsSub ("\x7b\x7breviewLink\x7d\x7d").toList
      ("Hi ".toList ++ (n.toList ++ ("! Visit \x7b\x7bfoo\x7d\x7d today").toList))
      = false := by
    rw [containsSub_append_left _ lbrace (by decide) _ _ (by decide),
        containsSub_append_left _ lbrace (by decide) _ _ h]
    decide
  rw [hstep0]
  show String.mk (replaceFirstL ("\x7b\x7breviewLink\x7d\x7d").toList r.toList
      (String.mk (replaceFirstL ("\x7b\x7bbusinessName\x7d\x7d").toList b.toList
        (String.mk (replaceFirstL ("\x7b\x7bcustomerName\x7d\x7d").toList n.toList
          ("Hi \x7b\x7bcustomerName\x7d\x7d! Visit \x7b\x7bfoo\x7d\x7d today").toList)).toList)).toList)
      = "Hi " ++ n ++ "! Visit \x7b\x7bfoo\x7d\x7d today"
  rw [h1]
  show String.mk (replaceFirstL ("\x7b\x7breviewLink\x7d\x7d").toList r.toList
      (replaceFirstL ("\x7b\x7bbusinessName\x7d\x7d").toList b.toList
        ("Hi ".toList ++ (n.toList ++ ("! Visit \x7b\x7bfoo\x7d\x7d today").toList))))
      = "Hi " ++ n ++ "! Visit \x7b\x7bfoo\x7d\x7d today"
  rw [replaceFirstL_of_not_containsSub _ _ _ hc2,
      replaceFirstL_of_not_containsSub _ _ _ hc3,
      show "Hi ".toList ++ (n.toList ++ ("! Visit \x7b\x7bfoo\x7d\x7d today").toList)
        = ("Hi ".toList ++ n.toList) ++ ("! Visit \x7b\x7bfoo\x7d\x7d today").toList
        from (List.append_assoc _ _ _).symm]
  cases n
  rfl

/-- Witness for C6 (amended): a customer name containing a raw
HTML-significant character is substituted verbatim and the unknown
placeholder stays. -/
theorem sms_custom_template_substitution_witness :
    (∀ c ∈ ("Jane<b>").toList, c ≠ lbrace) ∧
    (∀ c ∈ ("Jane<b>").toList, c ≠ '$') ∧
    generateReviewRequestMessage "Jane<b>" "Acme" "https://g.co/r"
        (some ⟨some "Hi \x7b\x7bcustomerName\x7d\x7d! Visit \x7b\x7bfoo\x7d\x7d today"⟩)
      = "Hi Jane<b>! Visit \x7b\x7bfoo\x7d\x7d today" :=
  ⟨by decide, by decide,
    sms_custom_template_substitution "Jane<b>" "Acme" "https://g.co/r"
      (by decide) (by decide)⟩

/-- C10 counterexample: with customer name `$&`, the first occurrence
of the duplicated recognized placeholder is not replaced by the field
value — JS dollar substitution re-inserts the matched text — so both
occurrences survive verbatim instead of the first being substituted. -/
theorem sms_first_occurrence_dollar_counterexample :
    generateReviewRequestMessage "$&" "Acme" "https://g.co/r"
        (some ⟨some "\x7b\x7bcustomerName\x7d\x7d and \x7b\x7bcustomerName\x7d\x7d"⟩)
      = "\x7b\x7bcustomerName\x7d\x7d and \x7b\x7bcustomerName\x7d\x7d" ∧
    generateReviewRequestMessage "$&" "Acme" "https://g.co/r"
        (some ⟨some "\x7b\x7bcustomerName\x7d\x7d and \x7b\x7bcustomerName\x7d\x7d"⟩)
      ≠ "$& and \x7b\x7bcustomerName\x7d\x7d" := by
  exact ⟨by decide, by decide⟩

/-- C10 (amended): when a recognized placeholder occurs twice in the
custom template and the customer name is free of braces and of dollars
(so no placeholder re-injection and no JS dollar substitution), only
the first occurrence is substituted — with the field value, verbatim —
and the second is left verbatim in the SMS body. -/
theorem sms_template_first_occurrence_only (n b r : String)
    (h : ∀ c ∈ n.toList, c ≠ lbrace) (hd : ∀ c ∈ n.toList, c ≠ '$') :
    generateReviewRequestMessage n b r
        (some ⟨some "\x7b\x7bcustomerName\x7d\x7d and \x7b\x7bcustomerName\x7d\x7d"⟩)
      = n ++ " and \x7b\x7bcustomerName\x7d\x7d" := by
  have hstep0 : generateReviewRequestMessage n b r
      (some ⟨some "\x7b\x7bcustomerName\x7d\x7d and \x7b\x7bcustomerName\x7d\x7d"⟩)
      = stringReplaceFirst "\x7b\x7breviewLink\x7d\x7d" r
          (stringReplaceFirst "\x7b\x7bbusinessName\x7d\x7d" b
            (stringReplaceFirst "\x7b\x7bcustomerName\x7d\x7d" n
              "\x7b\x7bcustomerName\x7d\x7d and \x7b\x7bcustomerName\x7d\x7d")) := rfl
  have hT : ("\x7b\x7bcustomerName\x7d\x7d and \x7b\x7bcustomerName\x7d\x7d").toList
      = ("\x7b\x7bcustomerName\x7d\x7d").toList ++
          (" and \x7b\x7bcustomerName\x7d\x7d").toList := by decide
  have h1 : replaceFirstL ("\x7b\x7bcustomerName\x7d\x7d").toList n.toList
      ("\x7b\x7bcustomerName\x7d\x7d and \x7b\x7bcustomerName\x7d\x7d").toList
      = n.toList ++ (" and \x7b\x7bcustomerName\x7d\x7d").toList := by
    simp only [replaceFirstL]
    rw [hT, replaceFirstAux_exact,
        getSubstitution_of_no_dollar _ _ _ n.toList hd]
  have hc2 : containsSub ("\x7b\x7bbusinessName\x7d\x7d").toList
      (n.toList ++ (" and \x7b\x7bcustomerName\x7d\x7d").toList) = false := by
    rw [containsSub_append_left _ lbrace (by decide) _ _ h]
    decide
  have hc3 : containsSub ("\x7b\x7breviewLink\x7d\x7d").toList
      (n.toList ++ (" and \x7b\x7bcustomerName\x7d\x7d").toList) = false := by
    rw [containsSub_append_left _ lbrace (by decide) _ _ h]
    decide
  rw [hstep0]
  show String.mk (replaceFirstL ("\x7b\x7breviewLink\x7d\x7d").toList r.toList
      (String.mk (replaceFirstL ("\x7b\x7bbusinessName\x7d\x7d").toList b.toList
        (String.mk (replaceFirstL ("\x7b\x7bcustomerName\x7d\x7d").toList n.toList
          ("\x7b\x7bcustomerName\x7d\x7d and \x7b\x7bcustomerName\x7d\x7d").toList)).toList)).toList)
      = n ++ " and \x7b\x7bcustomerName\x7d\x7d"
  rw [h1]
  show String.mk (replaceFirstL ("\x7b\x7breviewLink\x7d\x7d").toList r.toList
      (replaceFirstL ("\x7b\x7bbusinessName\x7d\x7d").toList b.toList
        (n.toList ++ (" and \x7b\x7bcustomerName\x7d\x7d").toList)))
      = n ++ " and \x7b\x7bcustomerName\x7d\x7d"
  rw [replaceFirstL_of_not_containsSub _ _ _ hc2,
      replaceFirstL_of_not_containsSub _ _ _ hc3]
  cases n
  rfl

/-- Witness for C10 (amended) at a concrete customer name. -/
theorem sms_template_first_occurrence_only_witness :
    (∀ c ∈ ("Jane").toList, c ≠ lbrace) ∧
    (∀ c ∈ ("Jane").toList, c ≠ '$') ∧
    generateReviewRequestMessage "Jane" "Acme" "https://g.co/r"
        (some ⟨some "\x7b\x7bcustomerName\x7d\x7d and \x7b\x7bcustomerName\x7d\x7d"⟩)
      = "Jane and \x7b\x7bcustomerName\x7d\x7d" :=
  ⟨by decide, by decide,
    sms_template_first_occurrence_only "Jane" "Acme" "https://g.co/r"
      (by decide) (by decide)⟩

/-! ## Server keep-alive (`server-keepalive.js`) -/

/-- Rolling statistics kept by `ServerKeepAlive` (`this.stats`).  Times
are modelled as natural-number timestamps. -/
structure KeepAliveStats where
  totalPings : Nat
  successfulPings : Nat
  failedPings : Nat
  lastPingTime : Option Nat
deriving DecidableEq

/-- The statistics at construction time. -/
def initialStats : KeepAliveStats :=
  { totalPings := 0, successfulPings := 0, failedPings := 0, lastPingTime := none }

/-- Outcome of the `axios.get` self-check call: the promise either
resolves with an HTTP response carrying a status code, or rejects
(network error, timeout, or non-2xx status under axios defaults). -/
inductive PingOutcome
  | resolved (status : Nat)
  | failed (message : String)
deriving DecidableEq

/-- Method `ServerKeepAlive.performSelfPing`: increments `totalPings` and sets
`lastPingTime`, then increments `successfulPings` only when the
response status is exactly 200, and `failedPings` when the request
threw.  A resolved response with a status other than 200 increments
neither counter. -/
def performSelfPing (stats : KeepAliveStats) (now : Nat)
    (outcome : PingOutcome) : KeepAliveStats :=
  let s1 := { stats with
    totalPings := stats.totalPings + 1
    lastPingTime := some now }
  match outcome with
  | .resolved st =>
    if st = 200 then { s1 with successfulPings := s1.successfulPings + 1 }
    else s1
  | .failed _ => { s1 with failedPings := s1.failedPings + 1 }

/-- A sequence of liveness ticks, each with its wall-clock time and
self-check outcome. -/
def runPings (stats : KeepAliveStats) : List (Nat × PingOutcome) → KeepAliveStats
  | [] => stats
  | (now, o) :: ticks => runPings (performSelfPing stats now o) ticks

/-- A tick whose self-check threw. -/
def isFailedTick : Nat × PingOutcome → Bool
  | (_, .failed _) => true
  | (_, .resolved _) => false

/-- A tick whose self-check resolved with status exactly 200. -/
def isOk200Tick : Nat × PingOutcome → Bool
  | (_, .resolved st) => st = 200
  | (_, .failed _) => false

lemma runPings_counts (ticks : List (Nat × PingOutcome)) (s : KeepAliveStats)
    (h : ∀ t ∈ ticks, isOk200Tick t = true ∨ isFailedTick t = true) :
    (runPings s ticks).totalPings = s.totalPings + ticks.length ∧
    (runPings s ticks).failedPings = s.failedPings + ticks.countP isFailedTick ∧
    (runPings s ticks).successfulPings
      = s.successfulPings + (ticks.length - ticks.countP isFailedTick) := by
  induction ticks generalizing s with
  | nil => simp [runPings]
  | cons t ts ih =>
    have hcnt : ts.countP isFailedTick ≤ ts.length := List.countP_le_length _
    obtain ⟨now, o⟩ := t
    have ht := h (now, o) (List.mem_cons_self _ _)
    have ih' := fun s' => ih s' fun t' ht' => h t' (List.mem_cons_of_mem _ ht')
    cases o with
    | resolved st =>
      have hst : st = 200 := by
        rcases ht with h' | h'
        · simpa [isOk200Tick] using h'
        · simp [isFailedTick] at h'
      subst hst
      have hstep : performSelfPing s now (.resolved 200)
          = { s with
              totalPings := s.totalPings + 1
              lastPingTime := some now
              successfulPings := s.successfulPings + 1 } := by
        simp [performSelfPing]
      rw [show runPings s ((now, PingOutcome.resolved 200) :: ts)
          = runPings (performSelfPing s now (.resolved 200)) ts from rfl, hstep]
      obtain ⟨h1, h2, h3⟩ := ih' { s with
        totalPings := s.totalPings + 1
        lastPingTime := some now
        successfulPings := s.successfulPings + 1 }
      refine ⟨?_, ?_, ?_⟩
      · rw [h1]
        simp [List.countP_cons, List.length_cons, isFailedTick]
        all_goals omega
      · rw [h2]
        simp [List.countP_cons, List.length_cons, isFailedTick]
        all_goals omega
      · rw [h3]
        simp [List.countP_cons, List.length_cons, isFailedTick]
        all_goals omega
    | failed msg =>
      have hstep : performSelfPing s now (.failed msg)
          = { s with
              totalPings := s.totalPings + 1
              lastPingTime := some now
              failedPings := s.failedPings + 1 } := by
        simp [performSelfPing]
      rw [show runPings s ((now, PingOutcome.failed msg) :: ts)
          = runPings (performSelfPing s now (.failed msg)) ts from rfl, hstep]
      obtain ⟨h1, h2, h3⟩ := ih' { s with
        totalPings := s.totalPings + 1
        lastPingTime := some now
        failedPings := s.failedPings + 1 }
      refine ⟨?_, ?_, ?_⟩
      · rw [h1]
        simp [List.countP_cons, List.length_cons, isFailedTick]
        all_goals omega
      · rw [h2]
        simp [List.countP_cons, List.length_cons, isFailedTick]
        all_goals omega
      · rw [h3]
        simp [List.countP_cons, List.length_cons, isFailedTick]
        all_goals omega

/-- C7 counterexample: a liveness tick whose self-check resolves with
HTTP status 204 increments `totalPings` but neither `successfulPings`
nor `failedPings` (the code only counts a success for status exactly
200), so the counters do not satisfy `successfulPings = totalPings -
failedPings` after that tick. -/
theorem performSelfPing_204_neither_counter :
    (performSelfPing initialStats 0 (.resolved 204)).totalPings = 1 ∧
    (performSelfPing initialStats 0 (.resolved 204)).successfulPings = 0 ∧
    (performSelfPing initialStats 0 (.resolved 204)).failedPings = 0 ∧
    ¬ ((performSelfPing initialStats 0 (.resolved 204)).successfulPings
        = (performSelfPing initialStats 0 (.resolved 204)).totalPings
          - (performSelfPing initialStats 0 (.resolved 204)).failedPings) := by
  decide

/-- C7 (amended): every tick increments `totalPings` and updates
`lastPingTime` regardless of outcome; and when every tick either
resolves with status exactly 200 or throws, after `N` ticks of which
`M` threw the counters read `totalPings = N`, `failedPings = M`,
`successfulPings = N - M`.  (A tick resolving with a 2xx status other
than 200 increments neither `successfulPings` nor `failedPings`.) -/
theorem performSelfPing_counters :
    (∀ (s : KeepAliveStats) (now : Nat) (o : PingOutcome),
      (performSelfPing s now o).totalPings = s.totalPings + 1 ∧
      (performSelfPing s now o).lastPingTime = some now) ∧
    (∀ ticks : List (Nat × PingOutcome),
      (∀ t ∈ ticks, isOk200Tick t = true ∨ isFailedTick t = true) →
      (runPings initialStats ticks).totalPings = ticks.length ∧
      (runPings initialStats ticks).failedPings = ticks.countP isFailedTick ∧
      (runPings initialStats ticks).successfulPings
        = ticks.length - ticks.countP isFailedTick) := by
  constructor
  · intro s now o
    cases o with
    | resolved st =>
      by_cases hst : st = 200 <;> simp [performSelfPing, hst]
    | failed msg => simp [performSelfPing]
  · intro ticks h
    have := runPings_counts ticks initialStats h
    simpa [initialStats] using this

/-- Witness for C7 (amended): two ticks, one success and one thrown
failure, yield totals 2 / 1 / 1. -/
theorem performSelfPing_counters_witness :
    (∀ t ∈ [((0 : Nat), PingOutcome.resolved 200), (7, PingOutcome.failed "timeout")],
      isOk200Tick t = true ∨ isFailedTick t = true) ∧
    (runPings initialStats
        [((0 : Nat), PingOutcome.resolved 200), (7, PingOutcome.failed "timeout")]).totalPings = 2 ∧
    (runPings initialStats
        [((0 : Nat), PingOutcome.resolved 200), (7, PingOutcome.failed "timeout")]).failedPings = 1 ∧
    (runPings initialStats
        [((0 : Nat), PingOutcome.resolved 200), (7, PingOutcome.failed "timeout")]).successfulPings = 1 :=
  ⟨by decide,
    (performSelfPing_counters.2
      [((0 : Nat), PingOutcome.resolved 200), (7, PingOutcome.failed "timeout")]
      (by decide)).1,
    (performSelfPing_counters.2
      [((0 : Nat), PingOutcome.resolved 200), (7, PingOutcome.failed "timeout")]
      (by decide)).2.1,
    (performSelfPing_counters.2
      [((0 : Nat), PingOutcome.resolved 200), (7, PingOutcome.failed "timeout")]
      (by decide)).2.2⟩

/-- Scheduling state of the `ServerKeepAlive` class: whether the
keep-alive is enabled (`NODE_ENV === 'production'`), how many recurring
14-minute cron jobs have been scheduled, and how many warm-up
(initial-ping) timers have been set. -/
structure ServerKeepAlive where
  enabled : Bool
  cronJobs : Nat
  warmupTimers : Nat
deriving DecidableEq

/-- Method `ServerKeepAlive.start` from `server-keepalive.js`: returns
immediately when not enabled; otherwise schedules one recurring cron
job (`cron.schedule('*/14 * * * *', ...)`) and one warm-up timer
(`setTimeout(..., 5000)`).  The method keeps no started/running flag,
so nothing prevents repeated scheduling. -/
def ServerKeepAlive.start (s : ServerKeepAlive) : ServerKeepAlive :=
  if !s.enabled then s
  else { s with
    cronJobs := s.cronJobs + 1
    warmupTimers := s.warmupTimers + 1 }

/-- C8 counterexample: on an enabled scheduler with no jobs yet,
calling `start` twice schedules two recurring cron jobs (and two
warm-up timers), while a single call schedules one — so the second
`start` is not a no-op. -/
theorem keepAlive_start_twice_schedules_two :
    ServerKeepAlive.start (ServerKeepAlive.start ⟨true, 0, 0⟩)
      ≠ ServerKeepAlive.start ⟨true, 0, 0⟩ ∧
    (ServerKeepAlive.start (ServerKeepAlive.start ⟨true, 0, 0⟩)).cronJobs = 2 ∧
    (ServerKeepAlive.start ⟨true, 0, 0⟩).cronJobs = 1 := by
  decide

/-- C8 (amended): `start` is idempotent only for a disabled scheduler
(non-production), where it does nothing; for an enabled scheduler every
call to `start` schedules one additional recurring 14-minute cron job
and one additional warm-up timer, so a second call is never a no-op and
after two calls each wall-clock tick performs two self-checks. -/
theorem keepAlive_start_effect (s : ServerKeepAlive) :
    (s.enabled = false → ServerKeepAlive.start s = s) ∧
    (s.enabled = true →
      (ServerKeepAlive.start s).cronJobs = s.cronJobs + 1 ∧
      (ServerKeepAlive.start s).warmupTimers = s.warmupTimers + 1 ∧
      ServerKeepAlive.start (ServerKeepAlive.start s) ≠ ServerKeepAlive.start s) := by
  constructor
  · intro h
    simp [ServerKeepAlive.start, h]
  · intro h
    have h1 : ServerKeepAlive.start s = { s with
        cronJobs := s.cronJobs + 1
        warmupTimers := s.warmupTimers + 1 } := by
      simp [ServerKeepAlive.start, h]
    refine ⟨by rw [h1], by rw [h1], ?_⟩
    intro heq
    have h2 : ServerKeepAlive.start (ServerKeepAlive.start s)
        = { s with
            cronJobs := s.cronJobs + 1 + 1
            warmupTimers := s.warmupTimers + 1 + 1 } := by
      rw [h1]
      simp [ServerKeepAlive.start, h]
    rw [h2, h1] at heq
    have := congrArg ServerKeepAlive.cronJobs heq
    simp at this

/-- Witness for C8 (amended), at a disabled and an enabled scheduler. -/
theorem keepAlive_start_effect_witness :
    ((⟨false, 0, 0⟩ : ServerKeepAlive).enabled = false ∧
      ServerKeepAlive.start ⟨false, 0, 0⟩ = ⟨false, 0, 0⟩) ∧
    ((⟨true, 0, 0⟩ : ServerKeepAlive).enabled = true ∧
      (ServerKeepAlive.start ⟨true, 0, 0⟩).cronJobs = 0 + 1 ∧
      (ServerKeepAlive.start ⟨true, 0, 0⟩).warmupTimers = 0 + 1 ∧
      ServerKeepAlive.start (ServerKeepAlive.start ⟨true, 0, 0⟩)
        ≠ ServerKeepAlive.start ⟨true, 0, 0⟩) :=
  ⟨⟨rfl, (keepAlive_start_effect ⟨false, 0, 0⟩).1 rfl⟩,
    ⟨rfl, (keepAlive_start_effect ⟨true, 0, 0⟩).2 rfl⟩⟩

/-! ## Email service (`services/email-service.js`) and SMS sending -/

/-- The provider acknowledgment returned by the Resend API on success. -/
structure ResendResponse where
  id : String
  status : String
deriving DecidableEq

/-- The email payload built by the service (`emailData`). -/
structure EmailData where
  fromField : String
  toAddr : String
  subject : String
  html : String
  replyTo : Option String

/-- How the `axios.post` call to the Resend API can end, mirroring the
three-way test in the service's catch block: the request succeeds; the
server responds with an error status (`error.response`, carrying an
optional `data.message`); the request is made but no response arrives
(`error.request`); or the request could not even be set up
(any other exception, rethrown as-is). -/
inductive HttpOutcome
  | ok (resp : ResendResponse)
  | errorResponse (status : Nat) (dataMessage : Option String)
  | noResponse (cause : String)
  | setupError (message : String)
deriving DecidableEq

/-- Result of a send operation: the value returned or the message of
the thrown `Error`, together with the number of network calls made. -/
structure SendResult (α : Type) where
  result : Except String α
  networkCalls : Nat

/-- State of the `EmailService` singleton after its constructor ran:
environment values are optional strings, and `!value` JS truthiness
makes the absent and empty cases falsy. -/
structure EmailService where
  apiKey : Option String
  fromEmail : String
  fromName : String
deriving DecidableEq

/-- The `EmailService` constructor: reads `RESEND_API_KEY`,
`EMAIL_FROM_ADDRESS`, `EMAIL_FROM_NAME` and applies the documented
defaults for the latter two when absent or empty. -/
def EmailService.make (envApiKey envFromEmail envFromName : Option String) :
    EmailService :=
  { apiKey := envApiKey
    fromEmail := match envFromEmail with
      | some s => if s.isEmpty then "reviews@revboostapp.com" else s
      | none => "reviews@revboostapp.com"
    fromName := match envFromName with
      | some s => if s.isEmpty then "RevBoost" else s
      | none => "RevBoost" }

/-- Method `EmailService.sendEmail`: fails fast with
`'Resend API key is not configured'` before any network call when the
API key is falsy; otherwise performs exactly one `axios.post` and
classifies the outcome as in the source's catch block (provider
message with the `'Failed to send email'` fallback for an error
response, `'No response from email service'` when no response arrived,
and the original error rethrown otherwise). -/
def EmailService.sendEmail (svc : EmailService) (emailData : EmailData)
    (outcome : HttpOutcome) : SendResult ResendResponse :=
  if !(truthy svc.apiKey) then
    { result := .error "Resend API key is not configured", networkCalls := 0 }
  else
    match outcome with
    | .ok resp => { result := .ok resp, networkCalls := 1 }
    | .errorResponse _ dataMessage =>
      { result := .error (match dataMessage with
          | some m => if m.isEmpty then "Failed to send email" else m
          | none => "Failed to send email")
        networkCalls := 1 }
    | .noResponse _ =>
      { result := .error "No response from email service", networkCalls := 1 }
    | .setupError message =>
      { result := .error message, networkCalls := 1 }

/-- The acknowledgment the SMS service returns (`{ sid, status }`). -/
structure SmsAck where
  sid : String
  status : String
deriving DecidableEq

/-- Outcome of the Twilio `client.messages.create` call. -/
inductive TwilioOutcome
  | ok (sid : String) (status : String)
  | err (message : String)
deriving DecidableEq

/-- State of the `SmsService` singleton after its constructor ran: the
Twilio client exists only when both `TWILIO_ACCOUNT_SID` and
`TWILIO_AUTH_TOKEN` are truthy. -/
structure SmsService where
  accountSid : Option String
  authToken : Option String
  fromNumber : Option String
  client : Option Unit
deriving DecidableEq

/-- The `SmsService` constructor. -/
def SmsService.make (sid tok num : Option String) : SmsService :=
  { accountSid := sid
    authToken := tok
    fromNumber := num
    client := if truthy sid && truthy tok then some () else none }

/-- Arguments of `SmsService.sendReviewRequest`. -/
structure SmsReviewArgs where
  phoneNumber : String
  customerName : String
  businessName : String
  reviewLink : String
  customData : Option SmsCustomData

/-- Method `SmsService.sendReviewRequest`: throws
`'Twilio is not fully configured'` before any network call when the
client is missing or the sender number is falsy; otherwise builds the
message body and performs exactly one `messages.create` call, returning
`{ sid, status }` on success and rethrowing the provider error. -/
def SmsService.sendReviewRequest (svc : SmsService) (args : SmsReviewArgs)
    (outcome : TwilioOutcome) : SendResult SmsAck :=
  if svc.client.isNone || !(truthy svc.fromNumber) then
    { result := .error "Twilio is not fully configured", networkCalls := 0 }
  else
    match outcome with
    | .ok sid status => { result := .ok ⟨sid, status⟩, networkCalls := 1 }
    | .err message => { result := .error message, networkCalls := 1 }

/-- C2: a send attempt on a channel with missing credentials fails
immediately with the unconfigured-provider error and performs no
network call (and hence creates no partial state): `sendEmail` with a
falsy `RESEND_API_KEY`, and `sendReviewRequest` with a missing Twilio
client or falsy sender number. -/
theorem unconfigured_provider_fails_fast :
    (∀ (svc : EmailService) (d : EmailData) (o : HttpOutcome),
      truthy svc.apiKey = false →
      svc.sendEmail d o
        = { result := .error "Resend API key is not configured", networkCalls := 0 }) ∧
    (∀ (svc : SmsService) (a : SmsReviewArgs) (o : TwilioOutcome),
      svc.client = none ∨ truthy svc.fromNumber = false →
      svc.sendReviewRequest a o
        = { result := .error "Twilio is not fully configured", networkCalls := 0 }) := by
  constructor
  · intro svc d o h
    simp [EmailService.sendEmail, h]
  · intro svc a o h
    have hcond : (svc.client.isNone || !(truthy svc.fromNumber)) = true := by
      rcases h with h | h <;> simp [h]
    simp [SmsService.sendReviewRequest, hcond]

/-- Witness for C2: services constructed from empty environments. -/
theorem unconfigured_provider_fails_fast_witness :
    (truthy (EmailService.make none none none).apiKey = false ∧
      (EmailService.make none none none).sendEmail
          ⟨"RevBoost <reviews@revboostapp.com>", "a@b.com", "s", "<p>x</p>", none⟩
          (.ok ⟨"id1", "queued"⟩)
        = { result := .error "Resend API key is not configured", networkCalls := 0 }) ∧
    ((SmsService.make none none none).client = none ∧
      (SmsService.make none none none).sendReviewRequest
          ⟨"+15551234567", "Jane", "Acme", "https://g.co/r", none⟩
          (.ok "SM1" "queued")
        = { result := .error "Twilio is not fully configured", networkCalls := 0 }) :=
  ⟨⟨by decide,
      unconfigured_provider_fails_fast.1 (EmailService.make none none none)
        ⟨"RevBoost <reviews@revboostapp.com>", "a@b.com", "s", "<p>x</p>", none⟩
        (.ok ⟨"id1", "queued"⟩) (by decide)⟩,
    ⟨rfl,
      unconfigured_provider_fails_fast.2 (SmsService.make none none none)
        ⟨"+15551234567", "Jane", "Acme", "https://g.co/r", none⟩
        (.ok "SM1" "queued") (Or.inl rfl)⟩⟩

/-- C3: with a configured API key, every failing `axios.post` outcome
is classified into exactly one of the three cases of the catch block —
an error response yields the provider message when present and
non-empty, otherwise the `'Failed to send email'` fallback; an
unanswered request yields `'No response from email service'`; any other
exception is propagated with its own message.  Each case performs the
single network call, and no outcome escapes the classification. -/
theorem sendEmail_error_classification (svc : EmailService) (d : EmailData)
    (hkey : truthy svc.apiKey = true) :
    (∀ (st : Nat) (m : Option String),
      svc.sendEmail d (.errorResponse st m)
        = { result := .error (match m with
              | some s => if s.isEmpty then "Failed to send email" else s
              | none => "Failed to send email")
            networkCalls := 1 }) ∧
    (∀ cause : String,
      svc.sendEmail d (.noResponse cause)
        = { result := .error "No response from email service", networkCalls := 1 }) ∧
    (∀ message : String,
      svc.sendEmail d (.setupError message)
        = { result := .error message, networkCalls := 1 }) ∧
    (∀ o : HttpOutcome, (∀ r, o ≠ .ok r) →
      ∃ e, (svc.sendEmail d o).result = .error e ∧
        (svc.sendEmail d o).networkCalls = 1) := by
  have h1 : ∀ (st : Nat) (m : Option String),
      svc.sendEmail d (.errorResponse st m)
        = { result := .error (match m with
              | some s => if s.isEmpty then "Failed to send email" else s
              | none => "Failed to send email")
            networkCalls := 1 } := by
    intro st m
    simp [EmailService.sendEmail, hkey]
  have h2 : ∀ cause : String,
      svc.sendEmail d (.noResponse cause)
        = { result := .error "No response from email service", networkCalls := 1 } := by
    intro cause
    simp [EmailService.sendEmail, hkey]
  have h3 : ∀ message : String,
      svc.sendEmail d (.setupError message)
        = { result := .error message, networkCalls := 1 } := by
    intro message
    simp [EmailService.sendEmail, hkey]
  refine ⟨h1, h2, h3, ?_⟩
  intro o hnotok
  cases o with
  | ok r => exact absurd rfl (hnotok r)
  | errorResponse st m => exact ⟨_, by rw [h1 st m], by rw [h1 st m]⟩
  | noResponse cause => exact ⟨_, by rw [h2 cause], by rw [h2 cause]⟩
  | setupError message => exact ⟨_, by rw [h3 message], by rw [h3 message]⟩

/-- Witness for C3 at a configured service and concrete outcomes. -/
theorem sendEmail_error_classification_witness :
    truthy (EmailService.make (some "k") none none).apiKey = true ∧
    (EmailService.make (some "k") none none).sendEmail
        ⟨"f", "a@b.com", "s", "h", none⟩ (.errorResponse 422 (some "Invalid domain"))
      = { result := .error "Invalid domain", networkCalls := 1 } ∧
    (EmailService.make (some "k") none none).sendEmail
        ⟨"f", "a@b.com", "s", "h", none⟩ (.errorResponse 500 none)
      = { result := .error "Failed to send email", networkCalls := 1 } ∧
    (EmailService.make (some "k") none none).sendEmail
        ⟨"f", "a@b.com", "s", "h", none⟩ (.noResponse "timeout of 10000ms exceeded")
      = { result := .error "No response from email service", networkCalls := 1 } ∧
    (EmailService.make (some "k") none none).sendEmail
        ⟨"f", "a@b.com", "s", "h", none⟩ (.setupError "bad header")
      = { result := .error "bad header", networkCalls := 1 } :=
  ⟨by decide,
    (sendEmail_error_classification (EmailService.make (some "k") none none)
      ⟨"f", "a@b.com", "s", "h", none⟩ (by decide)).1 422 (some "Invalid domain"),
    (sendEmail_error_classification (EmailService.make (some "k") none none)
      ⟨"f", "a@b.com", "s", "h", none⟩ (by decide)).1 500 none,
    (sendEmail_error_classification (EmailService.make (some "k") none none)
      ⟨"f", "a@b.com", "s", "h", none⟩ (by decide)).2.1 "timeout of 10000ms exceeded",
    (sendEmail_error_classification (EmailService.make (some "k") none none)
      ⟨"f", "a@b.com", "s", "h", none⟩ (by decide)).2.2.1 "bad header"⟩

/-! ## Route handlers (`routes/email-routes.js`, `routes/sms-routes.js`) -/

/-- A validation error as produced by the express-validator chain
(`errors.array()` elements, reduced to field path and message). -/
structure FieldError where
  path : String
  msg : String
deriving DecidableEq

/-- Modelled from the spec: "recipient format must match channel (email
syntax for Email, phone syntax for SMS)".  The `isEmail` validator
lives in the external `validator.js` library, not in this repository;
it is modelled as: exactly one `@` separating a non-empty local part
from a non-empty domain that contains a dot, with no spaces.  A missing
field fails the validator. -/
def isEmailOpt : Option String → Bool
  | none => false
  | some s =>
    let cs := s.toList
    let localPart := cs.takeWhile fun c => c ≠ '@'
    let domain := (cs.dropWhile fun c => c ≠ '@').drop 1
    decide (cs.count '@' = 1) && !localPart.isEmpty && !domain.isEmpty &&
      domain.contains '.' && !cs.contains ' '

/-- Modelled from the spec: presence check used by the `notEmpty`
validator — a missing or empty field fails. -/
def notEmptyOpt : Option String → Bool
  | none => false
  | some s => !s.isEmpty

/-- Modelled from the spec: "reviewLink must be a well-formed absolute
URL" with "`http`/`https` only" schemes.  The external `isURL`
validator is modelled as an `http://` or `https://` prefix followed by
a non-empty remainder. -/
def isURLOpt : Option String → Bool
  | none => false
  | some s =>
    (startsWithL ("http://").toList s.toList && decide (7 < s.toList.length)) ||
    (startsWithL ("https://").toList s.toList && decide (8 < s.toList.length))

/-- Modelled from the spec: "phone syntax for SMS".  The external
`isMobilePhone` validator is modelled as an optional leading `+`
followed by 7 to 15 digits. -/
def isMobilePhoneOpt : Option String → Bool
  | none => false
  | some s =>
    let ds := match s.toList with
      | '+' :: rest => rest
      | l => l
    decide (7 ≤ ds.length) && decide (ds.length ≤ 15) && ds.all fun c => c.isDigit

/-- Body of `POST /api/email/review-request` (fields may be absent). -/
structure EmailReviewRequest where
  toEmail : Option String
  customerName : Option String
  businessName : Option String
  reviewLink : Option String
  replyTo : Option String
deriving DecidableEq

/-- The validator chain of the email review-request route, in source
order; each failing validator contributes its error. -/
def validateEmailReviewRequest (r : EmailReviewRequest) : List FieldError :=
  (if isEmailOpt r.toEmail then [] else
    [⟨"toEmail", "Valid email address required"⟩]) ++
  (if notEmptyOpt r.customerName then [] else
    [⟨"customerName", "Customer name is required"⟩]) ++
  (if notEmptyOpt r.businessName then [] else
    [⟨"businessName", "Business name is required"⟩]) ++
  (if isURLOpt r.reviewLink then [] else
    [⟨"reviewLink", "Valid review link URL is required"⟩]) ++
  (match r.replyTo with
    | none => []
    | some e => if isEmailOpt (some e) then [] else
        [⟨"replyTo", "Reply-to must be a valid email if provided"⟩])

/-- Body of `POST /api/sms/review-request`. -/
structure SmsReviewRequest where
  phoneNumber : Option String
  customerName : Option String
  businessName : Option String
  reviewLink : Option String
deriving DecidableEq

/-- The validator chain of the SMS review-request route. -/
def validateSmsReviewRequest (r : SmsReviewRequest) : List FieldError :=
  (if isMobilePhoneOpt r.phoneNumber then [] else
    [⟨"phoneNumber", "Valid phone number required"⟩]) ++
  (if notEmptyOpt r.customerName then [] else
    [⟨"customerName", "Customer name is required"⟩]) ++
  (if notEmptyOpt r.businessName then [] else
    [⟨"businessName", "Business name is required"⟩]) ++
  (if isURLOpt r.reviewLink then [] else
    [⟨"reviewLink", "Valid review link URL is required"⟩])

/-- What a route handler produced: the HTTP status, the JSON `success`
flag, the validation errors included in a 400 body, and how many times
the service's send operation was invoked. -/
structure RouteResponse where
  status : Nat
  success : Bool
  errors : List FieldError
  providerCalls : Nat
deriving DecidableEq

/-- The `/review-request` email route handler: on validation errors it
responds 400 with the errors and never calls
`emailService.sendReviewRequest`; otherwise it performs the one send
(whose outcome is the `send` parameter) and responds 200 on success or
delegates a thrown error to the error-handler middleware (status 500
for a plain `Error`). -/
def handleEmailReviewRequest (r : EmailReviewRequest)
    (send : Except String ResendResponse) : RouteResponse :=
  if !(validateEmailReviewRequest r).isEmpty then
    { status := 400, success := false, errors := validateEmailReviewRequest r,
      providerCalls := 0 }
  else
    match send with
    | .ok _ => { status := 200, success := true, errors := [], providerCalls := 1 }
    | .error _ => { status := 500, success := false, errors := [], providerCalls := 1 }

/-- The `/review-request` SMS route handler, with the same shape. -/
def handleSmsReviewRequest (r : SmsReviewRequest)
    (send : Except String SmsAck) : RouteResponse :=
  if !(validateSmsReviewRequest r).isEmpty then
    { status := 400, success := false, errors := validateSmsReviewRequest r,
      providerCalls := 0 }
  else
    match send with
    | .ok _ => { status := 200, success := true, errors := [], providerCalls := 1 }
    | .error _ => { status := 500, success := false, errors := [], providerCalls := 1 }

/-- C1: whenever the request body fails structural validation, the
route handler (email or SMS) responds 400 with the validation errors
and the service send operation is never invoked — validation failure
short-circuits before any provider call, whatever the provider would
have answered. -/
theorem validation_failure_short_circuits :
    (∀ (r : EmailReviewRequest) (send : Except String ResendResponse),
      validateEmailReviewRequest r ≠ [] →
      handleEmailReviewRequest r send
        = { status := 400, success := false,
            errors := validateEmailReviewRequest r, providerCalls := 0 }) ∧
    (∀ (r : SmsReviewRequest) (send : Except String SmsAck),
      validateSmsReviewRequest r ≠ [] →
      handleSmsReviewRequest r send
        = { status := 400, success := false,
            errors := validateSmsReviewRequest r, providerCalls := 0 }) := by
  constructor
  · intro r send h
    have he : (validateEmailReviewRequest r).isEmpty = false := by
      cases hv : validateEmailReviewRequest r with
      | nil => exact absurd hv h
      | cons a l => rfl
    simp [handleEmailReviewRequest, he]
  · intro r send h
    have he : (validateSmsReviewRequest r).isEmpty = false := by
      cases hv : validateSmsReviewRequest r with
      | nil => exact absurd hv h
      | cons a l => rfl
    simp [handleSmsReviewRequest, he]

/-- Witness for C1: the email route with recipient `"not-an-email"`
and the SMS route with a missing `customerName` both answer 400 with
the corresponding validation error and zero provider calls, even
though the stubbed provider would have succeeded. -/
theorem validation_failure_short_circuits_witness :
    validateEmailReviewRequest
        ⟨some "not-an-email", some "Jane", some "Acme", some "https://g.co/r", none⟩ ≠ [] ∧
    handleEmailReviewRequest
        ⟨some "not-an-email", some "Jane", some "Acme", some "https://g.co/r", none⟩
        (.ok ⟨"x1", "queued"⟩)
      = { status := 400, success := false,
          errors := validateEmailReviewRequest
            ⟨some "not-an-email", some "Jane", some "Acme", some "https://g.co/r", none⟩,
          providerCalls := 0 } ∧
    validateSmsReviewRequest
        ⟨some "+15551234567", none, some "Acme", some "https://g.co/r"⟩ ≠ [] ∧
    handleSmsReviewRequest
        ⟨some "+15551234567", none, some "Acme", some "https://g.co/r"⟩
        (.ok ⟨"SM1", "queued"⟩)
      = { status := 400, success := false,
          errors := validateSmsReviewRequest
            ⟨some "+15551234567", none, some "Acme", some "https://g.co/r"⟩,
          providerCalls := 0 } :=
  ⟨by decide,
    validation_failure_short_circuits.1
      ⟨some "not-an-email", some "Jane", some "Acme", some "https://g.co/r", none⟩
      (.ok ⟨"x1", "queued"⟩) (by decide),
    by decide,
    validation_failure_short_circuits.2
      ⟨some "+15551234567", none, some "Acme", some "https://g.co/r"⟩
      (.ok ⟨"SM1", "queued"⟩) (by decide)⟩

/-- The `customData` object recognized by the email template. -/
structure EmailCustomData where
  buttonText : Option String

/-- Function `generateReviewRequestHtml` from `utils/email-templates.js`: escapes
`customerName`, `businessName` and `reviewLink` with `escapeHtml`, takes
`customData.buttonText` (JS-truthy, defaulting to `'Leave a Review'`)
*without* escaping it, and interpolates all of them together with the
current year into the HTML template literal (reproduced verbatim, with
braces and apostrophes written as `\x7b`/`\x7d`/`\x27` escapes). -/
def generateReviewRequestHtml (customerName businessName reviewLink : String)
    (customData : EmailCustomData) (currentYear : Nat) : String :=
  let safeCustomerName := escapeHtml customerName
  let safeBusinessName := escapeHtml businessName
  let safeReviewLink := escapeHtml reviewLink
  let buttonText := match customData.buttonText with
    | some b => if b.isEmpty then "Leave a Review" else b
    | none => "Leave a Review"
  "\n      <!DOCTYPE html>\n      <html>\n      <head>\n        <meta charset=\"utf-8\">\n        <meta name=\"viewport\" content=\"width=device-width, initial-scale=1.0\">\n        <title>We\x27d Love Your Feedback</title>\n        <style>\n          @import url(\x27https://fonts.googleapis.com/css2?family=Inter:wght@400;500;600;700&display=swap\x27);\n          \n          /* Base styles */\n          body \x7b\n            font-family: \x27Inter\x27, -apple-system, BlinkMacSystemFont, \x27Segoe UI\x27, Roboto, Helvetica, Arial, sans-serif;\n            line-height: 1.6;\n            color: #374151;\n            background-color: #f3f4f6;\n            margin: 0;\n            padding: 0;\n          \x7d\n          \n          /* Container styles */\n          .container \x7b\n            max-width: 600px;\n            margin: 0 auto;\n            padding: 20px;\n            background-color: #ffffff;\n          \x7d\n          \n          /* Header styles */\n          .header \x7b\n            text-align: center;\n            padding: 20px 0;\n            border-bottom: 1px solid #e5e7eb;\n          \x7d\n          \n          .header h2 \x7b\n            color: #1e3a8a;\n            margin: 0;\n            font-size: 24px;\n            font-weight: 700;\n          \x7d\n          \n          /* Content styles */\n          .content \x7b\n            padding: 24px 20px;\n          \x7d\n          \n          /* Button styles */\n          .button-container \x7b\n            text-align: center;\n            margin: 30px 0;\n          \x7d\n          \n          .button \x7b\n            display: inline-block;\n            padding: 12px 24px;\n            background-color: #2563eb;\n            color: white !important;\n            text-decoration: none;\n            border-radius: 6px;\n            font-weight: 600;\n            font-size: 16px;\n            transition: background-color 0.3s;\n          \x7d\n          \n          .button:hover \x7b\n            background-color: #1e40af;\n          \x7d\n          \n          /* Footer styles */\n          .footer \x7b\n            text-align: center;\n            margin-top: 20px;\n            padding-top: 20px;\n            border-top: 1px solid #e5e7eb;\n            font-size: 12px;\n            color: #6b7280;\n          \x7d\n          \n          /* Responsive adjustments */\n          @media only screen and (max-width: 480px) \x7b\n            .container \x7b\n              padding: 10px;\n            \x7d\n            \n            .content \x7b\n              padding: 20px 15px;\n            \x7d\n            \n            .button \x7b\n              display: block;\n              text-align: center;\n            \x7d\n          \x7d\n        </style>\n      </head>\n      <body>\n        <div class=\"container\">\n          <div class=\"header\">\n            <h2>We\x27d Love Your Feedback!</h2>\n          </div>\n          <div class=\"content\">\n            <p>Hello " ++
    safeCustomerName ++
    ",</p>\n            <p>Thank you for choosing " ++
    safeBusinessName ++
    ". We hope you had a great experience!</p>\n            <p>We value your feedback and would appreciate it if you could take a moment to share your experience with us.</p>\n            \n            <div class=\"button-container\">\n              <a href=\"" ++
    safeReviewLink ++
    "\" class=\"button\">" ++
    buttonText ++
    "</a>\n            </div>\n            \n            <p>Your feedback helps us improve and better serve our customers.</p>\n            <p>Thank you for your time!</p>\n            <p>\n              Best regards,<br>\n              The " ++
    safeBusinessName ++
    " Team\n            </p>\n          </div>\n          <div class=\"footer\">\n            <p>This email was sent to you because you interacted with " ++
    safeBusinessName ++
    ".</p>\n            <p>© " ++
    toString currentYear ++
    " " ++
    safeBusinessName ++
    ". All rights reserved.</p>\n          </div>\n        </div>\n      </body>\n      </html>\n    "

set_option maxRecDepth 40000 in
/-- C5 divergence witness: evaluating `generateReviewRequestHtml` with
`customData.buttonText = "<RAW>x"` shows the raw `<RAW>x` marker —
HTML-significant characters included — appearing verbatim in the
output, and its escaped form `&lt;RAW&gt;x` nowhere: the custom
override field is interpolated without passing through `escapeHtml`,
unlike the three other interpolated fields. -/
theorem generateReviewRequestHtml_buttonText_unescaped :
    containsSub ("<RAW>x").toList
      (generateReviewRequestHtml "Jane" "Acme" "https://g.co/r"
        ⟨some "<RAW>x"⟩ 2026).toList = true ∧
    containsSub ("&lt;RAW&gt;x").toList
      (generateReviewRequestHtml "Jane" "Acme" "https://g.co/r"
        ⟨some "<RAW>x"⟩ 2026).toList = false := by
  constructor
  · decide
  · decide
